import Mathlib

/-!
Verification of the gobincache staleness-decision core.

The embedding models the richest revision of the program (the one with the
toolchain check, `src/unnamed/part_000`): `requiresInstall`,
`needsUpdateForGo` and `versionFromGoMod`, together with the parts of
`golang.org/x/mod/semver` (`IsValid`, `Compare`) that `needsUpdateForGo`
calls.  File I/O is abstracted: the result of reading the binary's build
info is an explicit `ArtifactRead` input, and the result of reading the
go.mod bytes is an explicit `Except` input to the top-level pipeline.
Machine strings are Lean `String`s; the semver functions work on the
underlying character lists exactly as the Go code works on bytes (all
version strings involved are ASCII).
-/

namespace Gobincache

/-- A module path and version, modelling both `debug.Module` (the binary's
main module, fields `Path` and `Version`) and `module.Version` (an entry of
the go.mod require list, fields `Path` and `Version`). -/
structure Module where
  Path : String
  Version : String

/-- The parsed go.mod, modelling the fields of `modfile.File` that the
program reads: `Go.Version` (the mandatory toolchain directive, flattened
here to `GoVersion`), the `Require` list (each element's `Mod`), and the
`Replace` list (pairs of old and new module, never read by the resolver). -/
structure GoMod where
  GoVersion : String
  Require : List Module
  Replace : List (Module × Module)

/-- The build provenance embedded in a binary, modelling the fields of
`debug.BuildInfo` that the program reads: `GoVersion` (toolchain that built
the binary) and `Main` (the declaring module). -/
structure BuildInfo where
  GoVersion : String
  Main : Module

/-- Result of `buildinfo.ReadFile(binPath)`: the file does not exist
(an error satisfying `errors.Is(err, os.ErrNotExist)`), some other read or
format failure, or successfully extracted metadata. -/
inductive ArtifactRead where
  | missing
  | failed (msg : String)
  | ok (info : BuildInfo)

namespace semver

/-- Identifier characters of semver prerelease and build segments,
modelling `isIdentChar` of golang.org/x/mod/semver: ASCII letters, digits
and hyphen. -/
def isIdentChar (c : Char) : Bool :=
  c.isAlpha || c.isDigit || c == '-'

/-- Modelling `isNum`: every character is a digit. -/
def isNum (v : List Char) : Bool :=
  v.all Char.isDigit

/-- Modelling `isBadNum`: an all-digit segment of length above one with a
leading zero. -/
def isBadNum (v : List Char) : Bool :=
  v.all Char.isDigit && decide (1 < v.length) && (v.headD 'x' == '0')

/-- Modelling `parseInt`: a nonempty leading run of digits with no leading
zero; returns the digit run and the rest. -/
def parseInt (cs : List Char) : Option (List Char × List Char) :=
  match cs with
  | [] => none
  | c :: _ =>
    if !c.isDigit then none
    else
      let t := cs.takeWhile Char.isDigit
      let rest := cs.dropWhile Char.isDigit
      if c == '0' && t.length != 1 then none
      else some (t, rest)

/-- Loop of `parsePrerelease`: walks dot-separated identifier segments
until end of input or a plus sign, rejecting empty segments, bad numeric
segments and non-identifier characters.  `seg` is the segment accumulated
so far; returns the segment list and the unconsumed rest. -/
def preLoop (seg : List Char) : List Char → Option (List (List Char) × List Char)
  | [] => if seg.isEmpty || isBadNum seg then none else some ([seg], [])
  | c :: cs =>
    if c == '+' then
      if seg.isEmpty || isBadNum seg then none else some ([seg], c :: cs)
    else if c == '.' then
      if seg.isEmpty || isBadNum seg then none
      else
        match preLoop [] cs with
        | none => none
        | some (segs, r) => some (seg :: segs, r)
    else if isIdentChar c then preLoop (seg ++ [c]) cs
    else none

/-- Modelling `parsePrerelease` at its call site in `parse`: consumes a
prerelease part when the input starts with a hyphen, otherwise consumes
nothing.  The segment list `[]` denotes the absence of a prerelease. -/
def parsePre (cs : List Char) : Option (List (List Char) × List Char) :=
  match cs with
  | '-' :: rest => preLoop [] rest
  | _ => some ([], cs)

/-- Loop of `parseBuild`: dot-separated nonempty identifier segments,
running to the end of the input. -/
def buildLoop (seg : List Char) : List Char → Bool
  | [] => !seg.isEmpty
  | c :: cs =>
    if c == '.' then
      if seg.isEmpty then false else buildLoop [] cs
    else if isIdentChar c then buildLoop (seg ++ [c]) cs
    else false

/-- Modelling `parseBuild` at its call site in `parse`: consumes a valid
build part when the input starts with a plus sign (leaving nothing),
otherwise consumes nothing; build metadata is ignored by `Compare`. -/
def parseBuild (cs : List Char) : Option (List Char) :=
  match cs with
  | '+' :: rest => if buildLoop [] rest then some [] else none
  | _ => some cs

/-- The fields of the `parsed` struct of golang.org/x/mod/semver that
`Compare` reads: major, minor and patch digit strings, and the prerelease
as its list of dot-separated segments (empty list when absent). -/
structure Parsed where
  major : List Char
  minor : List Char
  patch : List Char
  prerelease : List (List Char)
deriving DecidableEq

/-- Modelling `parse`: a leading letter v, then a dotted major(.minor(.patch))
triple of non-leading-zero digit runs (minor and patch default to zero),
then optional prerelease and build parts, with nothing left over. -/
def parse (cs : List Char) : Option Parsed :=
  match cs with
  | 'v' :: rest =>
    match parseInt rest with
    | none => none
    | some (major, r1) =>
      match r1 with
      | [] => some ⟨major, ['0'], ['0'], []⟩
      | '.' :: r2 =>
        match parseInt r2 with
        | none => none
        | some (minor, r3) =>
          match r3 with
          | [] => some ⟨major, minor, ['0'], []⟩
          | '.' :: r4 =>
            match parseInt r4 with
            | none => none
            | some (patch, r5) =>
              match parsePre r5 with
              | none => none
              | some (pre, r6) =>
                match parseBuild r6 with
                | none => none
                | some r7 => if r7.isEmpty then some ⟨major, minor, patch, pre⟩ else none
          | _ => none
      | _ => none
  | _ => none

/-- Modelling `semver.IsValid`. -/
def IsValid (v : String) : Bool :=
  (parse v.data).isSome

/-- Byte-wise lexicographic strict order on character lists, modelling the
string comparison `x < y` of Go on ASCII strings. -/
def lexLt : List Char → List Char → Bool
  | [], [] => false
  | [], _ :: _ => true
  | _ :: _, [] => false
  | a :: xs, b :: ys => if a == b then lexLt xs ys else decide (a < b)

/-- Modelling `compareInt`: equal strings are equal; otherwise the shorter
digit string is smaller, and equal lengths fall back to lexicographic
order. -/
def compareInt (x y : List Char) : Int :=
  if x = y then 0
  else if x.length < y.length then -1
  else if y.length < x.length then 1
  else if lexLt x y then -1 else 1

/-- Loop of `comparePrerelease`: pairwise comparison of identifier
segments; numeric identifiers are smaller than alphanumeric ones and
compare numerically, and a shorter segment list is smaller. -/
def prereleaseLoop : List (List Char) → List (List Char) → Int
  | [], [] => -1
  | [], _ :: _ => -1
  | _ :: _, [] => 1
  | dx :: xs, dy :: ys =>
    if dx = dy then prereleaseLoop xs ys
    else if isNum dx != isNum dy then (if isNum dx then -1 else 1)
    else if isNum dx && dx.length < dy.length then -1
    else if isNum dx && dy.length < dx.length then 1
    else if lexLt dx dy then -1 else 1

/-- Modelling `comparePrerelease` on segment lists: equal prereleases are
equal, a version with a prerelease is smaller than one without. -/
def comparePrerelease (x y : List (List Char)) : Int :=
  if x = y then 0
  else if x = [] then 1
  else if y = [] then -1
  else prereleaseLoop x y

/-- Modelling `semver.Compare`: an invalid version is smaller than a valid
one and equal to another invalid one; valid versions compare by major,
minor, patch, then prerelease. -/
def Compare (v w : String) : Int :=
  match parse v.data, parse w.data with
  | none, none => 0
  | none, some _ => -1
  | some _, none => 1
  | some pv, some pw =>
    let c1 := compareInt pv.major pw.major
    if c1 ≠ 0 then c1
    else
      let c2 := compareInt pv.minor pw.minor
      if c2 ≠ 0 then c2
      else
        let c3 := compareInt pv.patch pw.patch
        if c3 ≠ 0 then c3
        else comparePrerelease pv.prerelease pw.prerelease

end semver

/-- Modelling `strings.TrimPrefix(s, "go")`: strips one leading "go" when
present. -/
def trimGo (s : String) : String :=
  match s.data with
  | 'g' :: 'o' :: rest => String.mk rest
  | _ => s

/-- The manifest-side toolchain normalization of `needsUpdateForGo`:
`modGoVersion := "v" + gomod.Go.Version`. -/
def modGoVersion (v : String) : String :=
  "v" ++ v

/-- The artifact-side toolchain normalization of `needsUpdateForGo`:
`binGoVersion := "v" + strings.TrimPrefix(info.GoVersion, "go")`. -/
def binGoVersion (v : String) : String :=
  "v" ++ trimGo v

/-- Embedding of `needsUpdateForGo`: validates both normalized toolchain
versions, then reports an update exactly when the binary's toolchain
compares strictly below the manifest's. -/
def needsUpdateForGo (gomod : GoMod) (info : BuildInfo) : Except String Bool :=
  let modGo := modGoVersion gomod.GoVersion
  let binGo := binGoVersion info.GoVersion
  if !semver.IsValid modGo then
    .error ("parsing go.mod go version (" ++ modGo ++ ")")
  else if !semver.IsValid binGo then
    .error ("parsing binary go version (" ++ binGo ++ ")")
  else if semver.Compare binGo modGo = -1 then .ok true
  else .ok false

/-- The loop of `versionFromGoMod`: returns the first require entry whose
path matches, scanning in order with an early return. -/
def findRequire (p : String) : List Module → Option Module
  | [] => none
  | required :: rest =>
    if required.Path == p then some required else findRequire p rest

/-- Embedding of `versionFromGoMod`: looks the binary's module path up in
the go.mod require list. -/
def versionFromGoMod (gomod : GoMod) (binaryModule : Module) : Option Module :=
  findRequire binaryModule.Path gomod.Require

/-- Embedding of `requiresInstall` after the go.mod has been read and
parsed (the read and parse stages are `runGobincache` below): a missing
binary needs an install, any other read failure is an error, then the
toolchain check runs, then the module version check; a module path absent
from the require list needs an install. -/
def requiresInstall (gomod : GoMod) (artifact : ArtifactRead) (binPath : String) :
    Except String Bool :=
  match artifact with
  | .missing => .ok true
  | .failed msg => .error ("reading binary buildinfo (" ++ binPath ++ "): " ++ msg)
  | .ok info =>
    match needsUpdateForGo gomod info with
    | .error e => .error e
    | .ok goUpdate =>
      if goUpdate then .ok true
      else
        match versionFromGoMod gomod info.Main with
        | none => .ok true
        | some mod => .ok (info.Main.Version != mod.Version)

/-- Modelled from the spec: the Manifest Reader (`modfile.Parse` of
golang.org/x/mod, whose sources are not part of this repository).  The raw
manifest bytes are abstracted as a sequence of whitespace-split directive
lines; the grammar has a mandatory toolchain directive (go), module
requirement directives (require) and replace directives, and parsing fails
on an unparseable directive or when the mandatory toolchain version line
is absent.  The loop carries the toolchain version seen so far and the
accumulated require and replace lists. -/
def parseManifestLoop :
    List (List String) → Option String → List Module → List (Module × Module) →
    Except String GoMod
  | [], none, _, _ => .error "missing mandatory toolchain version line"
  | [], some g, reqs, reps => .ok ⟨g, reqs, reps⟩
  | line :: rest, g, reqs, reps =>
    match line with
    | [] => parseManifestLoop rest g reqs reps
    | ["module", _] => parseManifestLoop rest g reqs reps
    | ["go", v] => parseManifestLoop rest (some v) reqs reps
    | ["require", p, v] => parseManifestLoop rest g (reqs ++ [⟨p, v⟩]) reps
    | ["replace", op, ov, np, nv] =>
      parseManifestLoop rest g reqs (reps ++ [(⟨op, ov⟩, ⟨np, nv⟩)])
    | _ => .error "unparseable directive"

/-- Modelled from the spec: entry point of the Manifest Reader. -/
def parseManifest (lines : List (List String)) : Except String GoMod :=
  parseManifestLoop lines none [] []

/-- The full pipeline of `requiresInstall` including its first two stages:
the outcome of `os.ReadFile("go.mod")` is the `modRead` input, a parse
failure is wrapped as a parsing error, and the rest is `requiresInstall`. -/
def runGobincache (modRead : Except String (List (List String)))
    (artifact : ArtifactRead) (binPath : String) : Except String Bool :=
  match modRead with
  | .error e => .error ("reading modfile: " ++ e)
  | .ok b =>
    match parseManifest b with
    | .error e => .error ("parsing modfile: " ++ e)
    | .ok gomod => requiresInstall gomod artifact binPath

end Gobincache

namespace Gobincache

theorem compareInt_self (x : List Char) : semver.compareInt x x = 0 := by
  simp [semver.compareInt]

theorem comparePrerelease_self (x : List (List Char)) :
    semver.comparePrerelease x x = 0 := by
  simp [semver.comparePrerelease]

theorem Compare_self (v : String) : semver.Compare v v = 0 := by
  unfold semver.Compare
  cases hp : semver.parse v.data with
  | none => simp [hp]
  | some p => simp [hp, compareInt_self, comparePrerelease_self]

theorem trimGo_go_append (s : String) : trimGo ("go" ++ s) = s := by
  cases s with
  | mk data => rfl

theorem findRequire_eq_none (p : String) (l : List Module)
    (h : ∀ x ∈ l, x.Path ≠ p) : findRequire p l = none := by
  induction l with
  | nil => rfl
  | cons a as ih =>
    have ha : a.Path ≠ p := h a (List.mem_cons_self a as)
    simp only [findRequire]
    rw [if_neg (by simp [ha])]
    exact ih (fun x hx => h x (List.mem_cons_of_mem a hx))

theorem findRequire_first (p : String) (l1 l2 : List Module) (r : Module)
    (h1 : r.Path = p) (h2 : ∀ x ∈ l1, x.Path ≠ p) :
    findRequire p (l1 ++ r :: l2) = some r := by
  induction l1 with
  | nil => simp [findRequire, h1]
  | cons a as ih =>
    have ha : a.Path ≠ p := h2 a (List.mem_cons_self a as)
    simp only [List.cons_append, findRequire]
    rw [if_neg (by simp [ha])]
    exact ih (fun x hx => h2 x (List.mem_cons_of_mem a hx))

end Gobincache

namespace Gobincache

/-- Claim C1: for every parsed manifest, when the artifact binary is
missing, `requiresInstall` returns the needs-install verdict (true) with no
error; the universal quantification over the manifest shows that no
toolchain or module-version check is performed. -/
theorem requiresInstall_missing_needsInstall (gomod : GoMod) (binPath : String) :
    requiresInstall gomod .missing binPath = .ok true := rfl

/-- Claim C2: for a present artifact whose module path resolves to a
require entry, with the toolchain check passing, the verdict is
needs-install exactly when the entry's version string differs from the
artifact's declared module version string, and up-to-date exactly when the
strings are equal. -/
theorem requiresInstall_moduleVersion_decides (gomod : GoMod) (info : BuildInfo)
    (binPath : String) (mod : Module)
    (h1 : needsUpdateForGo gomod info = .ok false)
    (h2 : versionFromGoMod gomod info.Main = some mod) :
    (requiresInstall gomod (.ok info) binPath = .ok true ↔
      info.Main.Version ≠ mod.Version) ∧
    (requiresInstall gomod (.ok info) binPath = .ok false ↔
      info.Main.Version = mod.Version) := by
  simp only [requiresInstall, h1, h2]
  constructor
  · simp [bne_iff_ne]
  · simp [bne_eq_false_iff_eq]

theorem requiresInstall_moduleVersion_decides_witness :
    requiresInstall ⟨"1.21", [⟨"example.com/tool", "v1.2.0"⟩], []⟩
      (.ok ⟨"go1.22", ⟨"example.com/tool", "v1.2.0"⟩⟩) "bin/tool" = .ok false ∧
    requiresInstall ⟨"1.21", [⟨"example.com/tool", "v1.2.0"⟩], []⟩
      (.ok ⟨"go1.22", ⟨"example.com/tool", "v1.1.0"⟩⟩) "bin/tool" = .ok true := by
  constructor
  · exact (requiresInstall_moduleVersion_decides ⟨"1.21", [⟨"example.com/tool", "v1.2.0"⟩], []⟩
      ⟨"go1.22", ⟨"example.com/tool", "v1.2.0"⟩⟩ "bin/tool"
      ⟨"example.com/tool", "v1.2.0"⟩ rfl rfl).2.mpr rfl
  · exact (requiresInstall_moduleVersion_decides ⟨"1.21", [⟨"example.com/tool", "v1.2.0"⟩], []⟩
      ⟨"go1.22", ⟨"example.com/tool", "v1.1.0"⟩⟩ "bin/tool"
      ⟨"example.com/tool", "v1.2.0"⟩ rfl rfl).1.mpr (by decide)

end Gobincache

namespace Gobincache

/-- Claim C3: when both normalized toolchain versions are valid, a binary
toolchain strictly below the manifest's forces the needs-install verdict
regardless of the require list and module versions, and a binary toolchain
equal to or above the manifest's makes the toolchain check report no
update, so that check alone never causes needs-install. -/
theorem requiresInstall_toolchain_downgrade (gomod : GoMod) (info : BuildInfo)
    (binPath : String)
    (h1 : semver.IsValid (modGoVersion gomod.GoVersion) = true)
    (h2 : semver.IsValid (binGoVersion info.GoVersion) = true) :
    (semver.Compare (binGoVersion info.GoVersion) (modGoVersion gomod.GoVersion) = -1 →
      requiresInstall gomod (.ok info) binPath = .ok true) ∧
    (semver.Compare (binGoVersion info.GoVersion) (modGoVersion gomod.GoVersion) ≠ -1 →
      needsUpdateForGo gomod info = .ok false) := by
  constructor
  · intro hc
    simp [requiresInstall, needsUpdateForGo, h1, h2, hc]
  · intro hc
    simp [needsUpdateForGo, h1, h2, hc]

theorem requiresInstall_toolchain_downgrade_witness :
    requiresInstall ⟨"1.21", [⟨"m", "v1.2.0"⟩], []⟩
      (.ok ⟨"go1.20", ⟨"m", "v1.2.0"⟩⟩) "b" = .ok true :=
  (requiresInstall_toolchain_downgrade ⟨"1.21", [⟨"m", "v1.2.0"⟩], []⟩
    ⟨"go1.20", ⟨"m", "v1.2.0"⟩⟩ "b" (by decide) (by decide)).1 (by decide)

/-- Claim C4: a present artifact that passes the toolchain check but whose
declared module path matches no require entry yields the needs-install
verdict, not an error. -/
theorem requiresInstall_pathNotFound_needsInstall (gomod : GoMod) (info : BuildInfo)
    (binPath : String)
    (h1 : needsUpdateForGo gomod info = .ok false)
    (h2 : versionFromGoMod gomod info.Main = none) :
    requiresInstall gomod (.ok info) binPath = .ok true := by
  simp [requiresInstall, h1, h2]

theorem requiresInstall_pathNotFound_needsInstall_witness :
    requiresInstall ⟨"1.21", [⟨"other", "v1"⟩], []⟩
      (.ok ⟨"go1.21", ⟨"example.com/renamed-tool", "v1"⟩⟩) "b" = .ok true :=
  requiresInstall_pathNotFound_needsInstall ⟨"1.21", [⟨"other", "v1"⟩], []⟩
    ⟨"go1.21", ⟨"example.com/renamed-tool", "v1"⟩⟩ "b" rfl rfl

/-- Claim C5 counterexample: a manifest with two require entries for the
same path (versions v1 then v2) and a binary at v1; were the last matching
entry used, the verdict would be needs-install (v1 versus v2), but the
resolver takes the first matching entry and reports up-to-date. -/
theorem versionFromGoMod_last_match_cex :
    versionFromGoMod ⟨"1.21", [⟨"m", "v1"⟩, ⟨"m", "v2"⟩], []⟩ ⟨"m", "v1"⟩ =
      some ⟨"m", "v1"⟩ ∧
    requiresInstall ⟨"1.21", [⟨"m", "v1"⟩, ⟨"m", "v2"⟩], []⟩
      (.ok ⟨"go1.21", ⟨"m", "v1"⟩⟩) "b" = .ok false :=
  ⟨rfl, rfl⟩

/-- Claim C5 as amended: with duplicate entries for the artifact's module
path, the resolver uses the first matching require entry, not the last:
whatever follows the first match (`l2`, which may contain further entries
for the same path) never affects the verdict. -/
theorem versionFromGoMod_first_match (g : String) (rep : List (Module × Module))
    (l1 l2 : List Module) (r : Module) (info : BuildInfo) (binPath : String)
    (h1 : r.Path = info.Main.Path)
    (h2 : ∀ x ∈ l1, x.Path ≠ info.Main.Path)
    (h3 : needsUpdateForGo ⟨g, l1 ++ r :: l2, rep⟩ info = .ok false) :
    versionFromGoMod ⟨g, l1 ++ r :: l2, rep⟩ info.Main = some r ∧
    requiresInstall ⟨g, l1 ++ r :: l2, rep⟩ (.ok info) binPath =
      .ok (info.Main.Version != r.Version) := by
  have hv : versionFromGoMod ⟨g, l1 ++ r :: l2, rep⟩ info.Main = some r :=
    findRequire_first info.Main.Path l1 l2 r h1 h2
  exact ⟨hv, by simp [requiresInstall, h3, hv]⟩

theorem versionFromGoMod_first_match_witness :
    versionFromGoMod ⟨"1.21", [⟨"other", "v9"⟩, ⟨"m", "v1"⟩, ⟨"m", "v2"⟩], []⟩
      ⟨"m", "v1"⟩ = some ⟨"m", "v1"⟩ ∧
    requiresInstall ⟨"1.21", [⟨"other", "v9"⟩, ⟨"m", "v1"⟩, ⟨"m", "v2"⟩], []⟩
      (.ok ⟨"go1.21", ⟨"m", "v1"⟩⟩) "b" = .ok false := by
  have h := versionFromGoMod_first_match "1.21" [] [⟨"other", "v9"⟩] [⟨"m", "v2"⟩]
    ⟨"m", "v1"⟩ ⟨"go1.21", ⟨"m", "v1"⟩⟩ "b" rfl (by decide) rfl
  simpa using h

end Gobincache

namespace Gobincache

/-- Claim C6: for a present artifact, when either normalized toolchain
version is not a valid semantic version, the toolchain check fails with a
version-unparseable error and `requiresInstall` propagates exactly that
error, producing no verdict. -/
theorem needsUpdateForGo_unparseable_error (gomod : GoMod) (info : BuildInfo)
    (binPath : String)
    (h : semver.IsValid (modGoVersion gomod.GoVersion) = false ∨
      semver.IsValid (binGoVersion info.GoVersion) = false) :
    ∃ e, needsUpdateForGo gomod info = .error e ∧
      requiresInstall gomod (.ok info) binPath = .error e := by
  have key : ∃ e, needsUpdateForGo gomod info = .error e := by
    cases hm : semver.IsValid (modGoVersion gomod.GoVersion) with
    | false =>
      exact ⟨"parsing go.mod go version (" ++ modGoVersion gomod.GoVersion ++ ")",
        by simp [needsUpdateForGo, hm]⟩
    | true =>
      have hb : semver.IsValid (binGoVersion info.GoVersion) = false := by
        cases h with
        | inl h1 => rw [h1] at hm; exact absurd hm (by simp)
        | inr h2 => exact h2
      exact ⟨"parsing binary go version (" ++ binGoVersion info.GoVersion ++ ")",
        by simp [needsUpdateForGo, hm, hb]⟩
  obtain ⟨e, he⟩ := key
  exact ⟨e, he, by simp [requiresInstall, he]⟩

theorem needsUpdateForGo_unparseable_error_witness :
    ∃ e, needsUpdateForGo ⟨"banana", [⟨"m", "v1"⟩], []⟩ ⟨"go1.21", ⟨"m", "v1"⟩⟩ =
      .error e ∧
    requiresInstall ⟨"banana", [⟨"m", "v1"⟩], []⟩
      (.ok ⟨"go1.21", ⟨"m", "v1"⟩⟩) "b" = .error e :=
  needsUpdateForGo_unparseable_error ⟨"banana", [⟨"m", "v1"⟩], []⟩
    ⟨"go1.21", ⟨"m", "v1"⟩⟩ "b" (Or.inl (by decide))

/-- Claim C7: whenever the manifest bytes fail to parse (in the modelled
grammar this covers unparseable directives and the absent mandatory
toolchain version line), the invocation terminates with the wrapped parse
error and no verdict, whatever the state of the artifact. -/
theorem runGobincache_malformed_manifest_error (lines : List (List String))
    (e : String) (artifact : ArtifactRead) (binPath : String)
    (h : parseManifest lines = .error e) :
    runGobincache (.ok lines) artifact binPath =
      .error ("parsing modfile: " ++ e) := by
  simp [runGobincache, h]

theorem runGobincache_malformed_manifest_error_witness :
    runGobincache (.ok [["require", "example.com/tool", "v1.2.0"]]) .missing "b" =
      .error ("parsing modfile: " ++ "missing mandatory toolchain version line") :=
  runGobincache_malformed_manifest_error [["require", "example.com/tool", "v1.2.0"]]
    "missing mandatory toolchain version line" .missing "b" rfl

/-- Claim C8 counterexample: normalization is not idempotent: normalizing
the release string 1.21 once yields the valid v1.21, normalizing twice
yields the invalid vv1.21, and the twice-normalized form compares strictly
below (not equal to) the once-normalized form, so the comparison result is
not the same. -/
theorem normalization_not_idempotent_cex :
    semver.Compare (modGoVersion (modGoVersion "1.21")) (modGoVersion "1.21") = -1 ∧
    semver.Compare (modGoVersion "1.21") (modGoVersion "1.21") = 0 ∧
    semver.IsValid (modGoVersion (modGoVersion "1.21")) = false ∧
    semver.IsValid (modGoVersion "1.21") = true := by
  decide

/-- Claim C8 as amended: normalization unifies the two version grammars:
for every release string s, the bare manifest form s and the prefixed
artifact form go-s normalize to the identical string, so comparing the two
normalized forms yields equality; normalization is deterministic but not
idempotent (renormalizing prepends another v). -/
theorem normalization_unifies_grammars (s : String) :
    binGoVersion ("go" ++ s) = modGoVersion s ∧
    semver.Compare (binGoVersion ("go" ++ s)) (modGoVersion s) = 0 := by
  have h1 : binGoVersion ("go" ++ s) = modGoVersion s := by
    unfold binGoVersion modGoVersion
    rw [trimGo_go_append]
  exact ⟨h1, by rw [h1]; exact Compare_self (modGoVersion s)⟩

end Gobincache

namespace Gobincache

/-- Claim C9: module-path resolution consults only the require list: when
no require entry carries the artifact's path, the lookup finds nothing even
if the path occurs in the replace list, the whole verdict is unchanged by
replacing the replace list with any other, and under a passing toolchain
check the verdict is needs-install, exactly as for a path absent from the
manifest altogether. -/
theorem versionFromGoMod_ignores_replace (g : String) (req : List Module)
    (rep rep2 : List (Module × Module)) (info : BuildInfo) (binPath : String)
    (h : ∀ r ∈ req, r.Path ≠ info.Main.Path) :
    versionFromGoMod ⟨g, req, rep⟩ info.Main = none ∧
    requiresInstall ⟨g, req, rep⟩ (.ok info) binPath =
      requiresInstall ⟨g, req, rep2⟩ (.ok info) binPath ∧
    (needsUpdateForGo ⟨g, req, rep⟩ info = .ok false →
      requiresInstall ⟨g, req, rep⟩ (.ok info) binPath = .ok true) := by
  have hv : versionFromGoMod ⟨g, req, rep⟩ info.Main = none :=
    findRequire_eq_none info.Main.Path req h
  exact ⟨hv, rfl, fun h3 => by simp [requiresInstall, h3, hv]⟩

theorem versionFromGoMod_ignores_replace_witness :
    versionFromGoMod ⟨"1.21", [⟨"other", "v1"⟩], [(⟨"m", "v1"⟩, ⟨"new", "v2"⟩)]⟩
      ⟨"m", "v1"⟩ = none ∧
    requiresInstall ⟨"1.21", [⟨"other", "v1"⟩], [(⟨"m", "v1"⟩, ⟨"new", "v2"⟩)]⟩
      (.ok ⟨"go1.21", ⟨"m", "v1"⟩⟩) "b" = .ok true := by
  have h := versionFromGoMod_ignores_replace "1.21" [⟨"other", "v1"⟩]
    [(⟨"m", "v1"⟩, ⟨"new", "v2"⟩)] [] ⟨"go1.21", ⟨"m", "v1"⟩⟩ "b" (by decide)
  exact ⟨h.1, h.2.2 rfl⟩

/-- Claim C10: the missing-binary short circuit happens after the manifest
stages but before the toolchain check: a missing binary yields the
needs-install verdict for every parsed manifest, in particular one whose
toolchain version string cannot be normalized, while a manifest read
failure or parse failure is reported as an error even though the binary is
also missing. -/
theorem missing_binary_short_circuit (gomod : GoMod) (binPath msg : String)
    (lines : List (List String)) (e : String)
    (h : parseManifest lines = .error e) :
    requiresInstall gomod .missing binPath = .ok true ∧
    runGobincache (.error msg) .missing binPath =
      .error ("reading modfile: " ++ msg) ∧
    runGobincache (.ok lines) .missing binPath =
      .error ("parsing modfile: " ++ e) :=
  ⟨rfl, rfl, by simp [runGobincache, h]⟩

theorem missing_binary_short_circuit_witness :
    requiresInstall ⟨"not-a-version", [], []⟩ .missing "b" = .ok true ∧
    runGobincache (.error "open go.mod: no such file or directory") .missing "b" =
      .error ("reading modfile: " ++ "open go.mod: no such file or directory") ∧
    runGobincache (.ok [["require", "m", "v1"]]) .missing "b" =
      .error ("parsing modfile: " ++ "missing mandatory toolchain version line") :=
  missing_binary_short_circuit ⟨"not-a-version", [], []⟩ "b"
    "open go.mod: no such file or directory" [["require", "m", "v1"]]
    "missing mandatory toolchain version line" rfl

end Gobincache
